import Mathlib

/-!
Shallow embedding of the MAS_Hybrid_QA agent pipeline (src/src/agent/*.py):
the table store, the five table tools of `tools.py`, the input validator and
routing helpers of `utils.py` / `graph.py`, the router validation of
`planner.py`, and the worker nodes of `table_agent.py` / `analysis_agent.py`.

Modelling conventions:
- A HybridQA cell is a pair `[text, links]` in the JSON files; the tools only
  ever read `cell[0]` (and `header[i][0]`), so a cell is modelled as the
  `String` that `cell[0]` denotes, and the comprehensions
  `[cell[0] for cell in row]` become the identity on the modelled row.
- `Storage.get_table` opens and JSON-parses the file registered for a UID; the
  store is modelled as an association list from UID directly to the parsed
  table, and the `ValueError` raised for an unknown UID becomes the `none`
  branch of the lookup.
- Python exceptions are explicit outcomes: each tool result type has a
  `failure` constructor for a `ValueError` caught by the tool's
  `except ValueError` handler (carrying the error message and the echoed
  input parameters of the returned dict) and, where the body can index out of
  range, a `fault` constructor for an `IndexError`, which the handler does
  NOT catch and which therefore escapes the tool uncaught.
- Python list indexing `xs[i]` (negative indices allowed) is `pyGet`.
-/

/-- The apostrophe character used in the source error message strings. -/
def squote : String := String.singleton (Char.ofNat 39)

/-- Python list indexing `xs[i]`: a negative index counts from the end; an
index out of range after that adjustment yields `none` (an `IndexError`). -/
def pyGet {α : Type} (xs : List α) (i : Int) : Option α :=
  if 0 ≤ i then xs[i.toNat]?
  else
    let j : Int := i + xs.length
    if 0 ≤ j then xs[j.toNat]? else none

/-- A parsed HybridQA table: `title`, the header texts `header[i][0]`, and the
cell texts `data[r][c][0]` (see the modelling conventions above). -/
structure Table where
  title : String
  header : List String
  data : List (List String)
  deriving DecidableEq, Repr

/-- The table store: `Storage.tables` maps a UID to the (parsed) table. -/
def StorageModel : Type := List (String × Table)

/-- `Storage.get_table` (utils.py): `none` models the `ValueError` raised when
the UID is not a key of `self.tables`; otherwise the parsed table. -/
def StorageModel.get_table (s : StorageModel) (table_uid : String) : Option Table :=
  match s with
  | [] => none
  | (uid, t) :: rest =>
      if uid = table_uid then some t else StorageModel.get_table rest table_uid

/-- The message of the `ValueError` raised by `Storage.get_table`. -/
def notFoundError (table_uid : String) : String :=
  "Table with uid: " ++ squote ++ table_uid ++ squote ++ " not found"

/-- The message of the `ValueError` raised by `_get_column_index`. -/
def columnNotFoundError (column_name : String) : String :=
  "Column " ++ squote ++ column_name ++ squote ++ " not found"

/-- The scan of `_get_column_index`: first header position equal to the wanted
name, threading the running index `i`. -/
def findColumnIndex (column_name : String) : Nat → List String → Option Nat
  | _, [] => none
  | i, name :: rest =>
      if name = column_name then some i else findColumnIndex column_name (i + 1) rest

/-- `_get_column_index` (tools.py): index of the first header entry named
`column_name`; `none` models the `ValueError` when the column is absent. -/
def getColumnIndex (t : Table) (column_name : String) : Option Nat :=
  findColumnIndex column_name 0 t.header

/-- Result dict of `get_table_metadata`: `ok` carries table title, columns and
num rows; `failure` carries the error message and the echoed `table_uid`. -/
inductive MetadataResult where
  | ok (title : String) (columns : List String) (numRows : Nat)
  | failure (error : String) (table_uid : String)
  deriving DecidableEq, Repr

/-- `get_table_metadata` (tools.py). -/
def get_table_metadata (s : StorageModel) (table_uid : String) : MetadataResult :=
  match s.get_table table_uid with
  | some t => .ok t.title t.header t.data.length
  | none => .failure (notFoundError table_uid) table_uid

/-- Result dict of `get_column`; `fault` is an uncaught `IndexError` from
`row[column_index]` on a row shorter than the header. -/
inductive ColumnResult where
  | ok (cells : List String)
  | failure (error : String) (table_uid : String) (column_name : String)
  | fault
  deriving DecidableEq, Repr

/-- The comprehension `[row[column_index][0] for row in table["data"]]`:
`none` models the `IndexError` when some row is shorter than `ci + 1`. -/
def getColumnCells (ci : Nat) : List (List String) → Option (List String)
  | [] => some []
  | row :: rest =>
      match row[ci]? with
      | none => none
      | some c =>
          match getColumnCells ci rest with
          | none => none
          | some cs => some (c :: cs)

/-- `get_column` (tools.py). -/
def get_column (s : StorageModel) (table_uid column_name : String) : ColumnResult :=
  match s.get_table table_uid with
  | none => .failure (notFoundError table_uid) table_uid column_name
  | some t =>
      match getColumnIndex t column_name with
      | none => .failure (columnNotFoundError column_name) table_uid column_name
      | some ci =>
          match getColumnCells ci t.data with
          | none => .fault
          | some values => .ok values

/-- Result dict of `get_row_by_index`; `fault` is the uncaught `IndexError`
from `table["data"][row_index]` — the handler only catches `ValueError`. -/
inductive RowResult where
  | ok (row : List String)
  | failure (error : String) (table_uid : String) (row_index : Int)
  | fault
  deriving DecidableEq, Repr

/-- `get_row_by_index` (tools.py): no bounds check before
`table["data"][row_index]`. -/
def get_row_by_index (s : StorageModel) (table_uid : String) (row_index : Int) : RowResult :=
  match s.get_table table_uid with
  | none => .failure (notFoundError table_uid) table_uid row_index
  | some t =>
      match pyGet t.data row_index with
      | none => .fault
      | some row => .ok row

/-- Result dict of `get_cell`. -/
inductive CellResult where
  | ok (cell : String)
  | failure (error : String) (table_uid : String) (column_name : String)
  | fault
  deriving DecidableEq, Repr

/-- `get_cell` (tools.py): column resolved first, then
`table["data"][row_index][column_index][0]`. -/
def get_cell (s : StorageModel) (table_uid : String) (row_index : Int)
    (column_name : String) : CellResult :=
  match s.get_table table_uid with
  | none => .failure (notFoundError table_uid) table_uid column_name
  | some t =>
      match getColumnIndex t column_name with
      | none => .failure (columnNotFoundError column_name) table_uid column_name
      | some ci =>
          match pyGet t.data row_index with
          | none => .fault
          | some row =>
              match row[ci]? with
              | none => .fault
              | some v => .ok v

/-- Outcome of a Python block that can raise: a value, a `ValueError` with its
message, or an `IndexError`. -/
inductive PyEval (α : Type) where
  | val (a : α)
  | valueError (msg : String)
  | indexError
  deriving DecidableEq, Repr

/-- Result dict of `find_rows_by_value`: failure echoes `table_uid` and the
`conditions` mapping (modelled as its insertion-ordered item list). -/
inductive FindRowsResult where
  | ok (rowIndices : List Nat)
  | failure (error : String) (table_uid : String) (conditions : List (String × String))
  | fault
  deriving DecidableEq, Repr

/-- The inner loop of `find_rows_by_value` over `conditions.items()` for one
row: each passing condition appends `row_index`; the first failing condition
breaks, keeping the appends made so far; a missing column raises `ValueError`
(aborting everything), a short row raises `IndexError`. -/
def scanConditions (t : Table) (row : List String) (row_index : Nat) :
    List (String × String) → PyEval (List Nat)
  | [] => .val []
  | (column_name, value) :: rest =>
      match getColumnIndex t column_name with
      | none => .valueError (columnNotFoundError column_name)
      | some ci =>
          match row[ci]? with
          | none => .indexError
          | some cell =>
              if cell ≠ value then .val []
              else
                match scanConditions t row row_index rest with
                | .val ixs => .val (row_index :: ixs)
                | .valueError msg => .valueError msg
                | .indexError => .indexError

/-- The outer loop of `find_rows_by_value` over `enumerate(table["data"])`,
concatenating the appends of every row scan. -/
def scanRows (t : Table) (conditions : List (String × String)) :
    Nat → List (List String) → PyEval (List Nat)
  | _, [] => .val []
  | i, row :: rest =>
      match scanConditions t row i conditions with
      | .val ixs =>
          match scanRows t conditions (i + 1) rest with
          | .val more => .val (ixs ++ more)
          | .valueError msg => .valueError msg
          | .indexError => .indexError
      | .valueError msg => .valueError msg
      | .indexError => .indexError

/-- `find_rows_by_value` (tools.py). -/
def find_rows_by_value (s : StorageModel) (table_uid : String)
    (conditions : List (String × String)) : FindRowsResult :=
  match s.get_table table_uid with
  | none => .failure (notFoundError table_uid) table_uid conditions
  | some t =>
      match scanRows t conditions 0 t.data with
      | .val ixs => .ok ixs
      | .valueError msg => .failure msg table_uid conditions
      | .indexError => .fault

/-- Spec-side matcher (from the tool docstring and spec section 4.1): a row is
included exactly when EVERY condition entry matches its cell. This is the
comparison point for the matching defect, not a translation of the loop. -/
def rowMatchesAll (t : Table) (conditions : List (String × String))
    (row : List String) : Bool :=
  conditions.all fun c =>
    match getColumnIndex t c.1 with
    | none => false
    | some ci =>
        match row[ci]? with
        | none => false
        | some cell => cell = c.2

/-- Spec-side list of matching row indices under universal-match semantics. -/
def specMatchingIndices (t : Table) (conditions : List (String × String)) : List Nat :=
  (List.range t.data.length).filter fun i =>
    match t.data[i]? with
    | none => false
    | some row => rowMatchesAll t conditions row

/-- The demonstration table of spec section 8: columns Name, City and rows
Alice, NYC and Bob, LA. -/
def T1 : Table :=
  ⟨"Demo", ["Name", "City"], [["Alice", "NYC"], ["Bob", "LA"]]⟩

/-- A store holding only `T1` under UID T1. -/
def demoStorage : StorageModel := [("T1", T1)]

/-- Role of a langchain message: SystemMessage, HumanMessage or AIMessage. -/
inductive Role where
  | system
  | human
  | ai
  deriving DecidableEq, Repr

/-- A conversation message: role, text content, and the optional author label
passed as the message name. -/
structure Message where
  role : Role
  content : String
  author : Option String
  deriving DecidableEq, Repr

/-- The graph state after the validator: the messages plus the `next` field of
`State` (utils.py). -/
structure ValState where
  messages : List Message
  next : String
  deriving DecidableEq, Repr

/-- `validate_input` (utils.py): an empty incoming message list yields the
canned AI prompt and next end; otherwise the messages pass through unchanged
with next router. -/
def validate_input (input_messages : List Message) : ValState :=
  if input_messages = [] then
    ⟨[⟨.ai, "Please enter a question", none⟩], "end"⟩
  else
    ⟨input_messages, "router"⟩

/-- `route` (utils.py): the conditional-edge key is the state's next field. -/
def route (s : ValState) : String := s.next

/-- A target inside the compiled graph: a named node or the END sentinel. -/
inductive GraphTarget where
  | node (name : String)
  | END
  deriving DecidableEq, Repr

/-- The conditional-edge mapping attached to the validator in graph.py:
router maps to the router node, end maps to END; any other key would be a
KeyError (`none`). -/
def validator_edges (key : String) : Option GraphTarget :=
  if key = "router" then some (.node "router")
  else if key = "end" then some .END
  else none

/-- The members list passed to `make_planner_node` in planner.py. -/
def members : List String := ["table_agent", "analysis_agent"]

/-- `options = ["FINISH"] + members` (planner.py). -/
def options : List String := ["FINISH"] ++ members

/-- The structured routing decision (the Router pydantic model). -/
structure Router where
  next : String
  deriving DecidableEq, Repr

/-- The `validate_next` field validator of the Router model: a value outside
`options` raises a ValueError (pydantic turns it into a ValidationError), so
construction fails; otherwise the value is kept. -/
def Router.validate_next (v : String) : Except String String :=
  if v ∈ options then .ok v
  else .error ("next must be one of " ++ String.intercalate ", " options ++ ", got " ++ v)

/-- Construction of a Router instance: pydantic runs `validate_next` on the
`next` field before the model exists. -/
def mkRouter (v : String) : Except String Router :=
  match Router.validate_next v with
  | .ok v2 => .ok ⟨v2⟩
  | .error e => .error e

/-- The langgraph END sentinel that `goto = END` resolves to. -/
def endSentinel : String := "__end__"

/-- The goto computed by `planner_node` from a validated Router decision:
FINISH becomes END, anything else is forwarded as the worker name. -/
def planner_goto (r : Router) : String :=
  if r.next = "FINISH" then endSentinel else r.next

/-- The Command returned by a worker node: its goto target and the message
list of its update. -/
structure AgentCommand where
  goto : String
  update : List Message
  deriving DecidableEq, Repr

/-- The table agent system prompt (table_agent.py). The full prompt text is
inert data never inspected by any function here, so only its opening words
are reproduced. -/
def TABLE_AGENT_SYSTEM_PROMPT : String :=
  "Table agent: extract data from tables only."

/-- The analysis agent system prompt (analysis_agent.py), likewise abridged. -/
def ANALYSIS_AGENT_SYSTEM_PROMPT : String :=
  "Analysis agent: analyze table_agent data and produce the final answer."

/-- `table_agent_node` (table_agent.py), with the LLM-backed
`table_agent.invoke` abstracted as an opaque function from the message list of
the invoked state to the message list of the result. The node reads
`result["messages"][-1]` (an IndexError, modelled `none`, if the result holds
no messages) and returns a Command updating with exactly one HumanMessage
named table_agent and goto router. -/
def table_agent_node (agent : List Message → List Message)
    (state_messages : List Message) : Option AgentCommand :=
  let messages_with_system : List Message :=
    ⟨.system, TABLE_AGENT_SYSTEM_PROMPT, none⟩ :: state_messages
  let result := agent messages_with_system
  match pyGet result (-1) with
  | none => none
  | some last => some ⟨"router", [⟨.human, last.content, some "table_agent"⟩]⟩

/-- `analysis_node` (analysis_agent.py), abstracted the same way: one
HumanMessage named analysis_agent, goto router. -/
def analysis_node (agent : List Message → List Message)
    (state_messages : List Message) : Option AgentCommand :=
  let messages_with_system : List Message :=
    ⟨.system, ANALYSIS_AGENT_SYSTEM_PROMPT, none⟩ :: state_messages
  let result := agent messages_with_system
  match pyGet result (-1) with
  | none => none
  | some last => some ⟨"router", [⟨.human, last.content, some "analysis_agent"⟩]⟩

theorem getElem?_of_lt {α : Type} :
    ∀ (xs : List α) (n : Nat), n < xs.length → ∃ a, xs[n]? = some a := by
  intro xs
  induction xs with
  | nil => intro n h; simp at h
  | cons a rest ih =>
      intro n h
      cases n with
      | zero => exact ⟨a, by simp⟩
      | succ m =>
          obtain ⟨b, hb⟩ := ih m (by simpa using Nat.lt_of_succ_lt_succ h)
          exact ⟨b, by simpa using hb⟩

theorem getElem?_of_le {α : Type} :
    ∀ (xs : List α) (n : Nat), xs.length ≤ n → xs[n]? = none := by
  intro xs
  induction xs with
  | nil => intro n _; cases n <;> rfl
  | cons a rest ih =>
      intro n h
      cases n with
      | zero => simp at h
      | succ m => simpa using ih m (by simpa using Nat.le_of_succ_le_succ h)

theorem pyGet_nonneg_oob {α : Type} (xs : List α) (i : Int) (h0 : 0 ≤ i)
    (h : (xs.length : Int) ≤ i) : pyGet xs i = none := by
  have : xs.length ≤ i.toNat := by omega
  simp [pyGet, h0, getElem?_of_le xs i.toNat this]

theorem pyGet_neg {α : Type} (xs : List α) (i : Int)
    (h1 : -(xs.length : Int) ≤ i) (h2 : i < 0) :
    ∃ a, pyGet xs i = some a ∧ xs[(i + xs.length).toNat]? = some a := by
  have hi : ¬ (0 ≤ i) := by omega
  have hj : (0 : Int) ≤ i + xs.length := by omega
  have hlt : (i + xs.length).toNat < xs.length := by omega
  obtain ⟨a, ha⟩ := getElem?_of_lt xs (i + xs.length).toNat hlt
  exact ⟨a, by simp [pyGet, hi, hj, ha], ha⟩

theorem pyGet_neg_one {α : Type} (xs : List α) (h : xs ≠ []) :
    ∃ a, pyGet xs (-1) = some a := by
  have hlen : 1 ≤ xs.length := by
    cases xs with
    | nil => exact absurd rfl h
    | cons b rest => simp
  obtain ⟨a, ha, _⟩ := pyGet_neg xs (-1) (by omega) (by omega)
  exact ⟨a, ha⟩

theorem findColumnIndex_of_mem (column_name : String) :
    ∀ (hdr : List String) (i : Nat), column_name ∈ hdr →
      ∃ ci, findColumnIndex column_name i hdr = some ci ∧ ci < i + hdr.length := by
  intro hdr
  induction hdr with
  | nil => intro i h; simp at h
  | cons a rest ih =>
      intro i h
      by_cases ha : a = column_name
      · exact ⟨i, by simp [findColumnIndex, ha], by simp⟩
      · have hm : column_name ∈ rest := by
          rcases List.mem_cons.mp h with h1 | h1
          · exact absurd h1.symm ha
          · exact h1
        obtain ⟨ci, hci, hlt⟩ := ih (i + 1) hm
        refine ⟨ci, by simp [findColumnIndex, ha, hci], ?_⟩
        simp only [List.length_cons]
        omega

theorem getColumnCells_length (ci : Nat) :
    ∀ data : List (List String), (∀ row ∈ data, ci < row.length) →
      ∃ vs, getColumnCells ci data = some vs ∧ vs.length = data.length := by
  intro data
  induction data with
  | nil => intro _; exact ⟨[], rfl, rfl⟩
  | cons row rest ih =>
      intro h
      obtain ⟨c, hc⟩ := getElem?_of_lt row ci (h row (by simp))
      obtain ⟨vs, hvs, hlen⟩ := ih fun r hr => h r (by simp [hr])
      exact ⟨c :: vs, by simp [getColumnCells, hc, hvs], by simp [hlen]⟩

/-- C9: on the demonstration table, a conditions mapping with two entries both
satisfied by row 0 makes find_rows_by_value report index 0 twice (one append
per passing condition), and a mapping whose first entry passes on row 0 but
whose second fails still reports index 0 once. -/
theorem find_rows_by_value_duplicate_indices :
    find_rows_by_value demoStorage "T1" [("Name", "Alice"), ("City", "NYC")] =
      .ok [0, 0] ∧
    find_rows_by_value demoStorage "T1" [("Name", "Bob"), ("City", "NYC")] =
      .ok [1] := by
  decide

/-- C1 counterexample: with conditions Name Alice and City LA, no row of the
demonstration table satisfies both conditions (the spec-side matcher returns
the empty index list), yet find_rows_by_value returns the success result
with row indices list containing 0, because row 0 passes the first condition
before the second breaks the scan. -/
theorem find_rows_by_value_not_universal_match :
    find_rows_by_value demoStorage "T1" [("Name", "Alice"), ("City", "LA")] =
      .ok [0] ∧
    specMatchingIndices T1 [("Name", "Alice"), ("City", "LA")] = [] := by
  decide

/-- C2 counterexample: with an empty conditions mapping, every row vacuously
satisfies all conditions (the spec-side matcher lists every row index), yet
find_rows_by_value returns the success result with an EMPTY row indices
list, because the inner loop over the conditions never executes an append. -/
theorem find_rows_by_value_empty_conditions :
    find_rows_by_value demoStorage "T1" [] = .ok [] ∧
    specMatchingIndices T1 [] = [0, 1] ∧
    T1.data.length = 2 := by
  decide

/-- C4: for a table UID absent from the store, each of the five table tools
returns a structured failure carrying the not-found error message and echoing
the requested UID, rather than raising. -/
theorem table_tools_not_found (s : StorageModel) (table_uid : String)
    (h : StorageModel.get_table s table_uid = none)
    (column_name : String) (row_index : Int) (conditions : List (String × String)) :
    get_table_metadata s table_uid = .failure (notFoundError table_uid) table_uid ∧
    get_column s table_uid column_name =
      .failure (notFoundError table_uid) table_uid column_name ∧
    get_row_by_index s table_uid row_index =
      .failure (notFoundError table_uid) table_uid row_index ∧
    get_cell s table_uid row_index column_name =
      .failure (notFoundError table_uid) table_uid column_name ∧
    find_rows_by_value s table_uid conditions =
      .failure (notFoundError table_uid) table_uid conditions := by
  simp [get_table_metadata, get_column, get_row_by_index, get_cell,
    find_rows_by_value, StorageModel.get_table, h]

theorem table_tools_not_found_witness :
    get_table_metadata demoStorage "T9" = .failure (notFoundError "T9") "T9" ∧
    get_column demoStorage "T9" "City" = .failure (notFoundError "T9") "T9" "City" ∧
    get_row_by_index demoStorage "T9" 0 = .failure (notFoundError "T9") "T9" 0 ∧
    get_cell demoStorage "T9" 0 "City" = .failure (notFoundError "T9") "T9" "City" ∧
    find_rows_by_value demoStorage "T9" [("City", "LA")] =
      .failure (notFoundError "T9") "T9" [("City", "LA")] :=
  table_tools_not_found demoStorage "T9" (by decide) "City" 0 [("City", "LA")]

/-- C3: for a stored rectangular table and a column name present in its
header, get_column succeeds with a cells list whose length equals the row
count that get_table_metadata reports as num rows for the same UID. -/
theorem get_column_length_eq_num_rows (s : StorageModel) (table_uid column_name : String)
    (t : Table) (hs : StorageModel.get_table s table_uid = some t)
    (hc : column_name ∈ t.header)
    (hwf : ∀ row ∈ t.data, row.length = t.header.length) :
    ∃ cells, get_column s table_uid column_name = .ok cells ∧
      get_table_metadata s table_uid = .ok t.title t.header t.data.length ∧
      cells.length = t.data.length := by
  obtain ⟨ci, hci, hlt⟩ := findColumnIndex_of_mem column_name t.header 0 hc
  have hrows : ∀ row ∈ t.data, ci < row.length := by
    intro row hr
    rw [hwf row hr]
    omega
  obtain ⟨vs, hvs, hlen⟩ := getColumnCells_length ci t.data hrows
  refine ⟨vs, ?_, ?_, hlen⟩
  · simp [get_column, hs, getColumnIndex, hci, hvs]
  · simp [get_table_metadata, hs]

theorem get_column_length_eq_num_rows_witness :
    ∃ cells, get_column demoStorage "T1" "City" = .ok cells ∧
      get_table_metadata demoStorage "T1" = .ok "Demo" ["Name", "City"] 2 ∧
      cells.length = 2 :=
  get_column_length_eq_num_rows demoStorage "T1" "City" T1 (by decide) (by decide)
    (by decide)

/-- C5: for a stored table with n rows and a row index at least n, the body of
get_row_by_index indexes out of range, which raises IndexError; the handler
only catches ValueError, so the tool faults instead of returning a structured
failure. -/
theorem get_row_by_index_out_of_range_fault (s : StorageModel) (table_uid : String)
    (t : Table) (hs : StorageModel.get_table s table_uid = some t)
    (row_index : Int) (h : (t.data.length : Int) ≤ row_index) :
    get_row_by_index s table_uid row_index = .fault := by
  have h0 : 0 ≤ row_index := by omega
  have := pyGet_nonneg_oob t.data row_index h0 h
  simp [get_row_by_index, hs, this]

theorem get_row_by_index_out_of_range_fault_witness :
    get_row_by_index demoStorage "T1" 2 = .fault :=
  get_row_by_index_out_of_range_fault demoStorage "T1" T1 (by decide) 2 (by decide)

/-- C10: for a stored table with at least one row and a negative row index no
smaller than minus the row count, get_row_by_index succeeds with the row at
position row count plus row index, by Python negative indexing. -/
theorem get_row_by_index_negative_ok (s : StorageModel) (table_uid : String)
    (t : Table) (hs : StorageModel.get_table s table_uid = some t)
    (row_index : Int) (h1 : -(t.data.length : Int) ≤ row_index) (h2 : row_index < 0) :
    ∃ row, get_row_by_index s table_uid row_index = .ok row ∧
      t.data[(row_index + t.data.length).toNat]? = some row := by
  obtain ⟨row, hrow, hget⟩ := pyGet_neg t.data row_index h1 h2
  exact ⟨row, by simp [get_row_by_index, hs, hrow], hget⟩

theorem get_row_by_index_negative_ok_witness :
    ∃ row, get_row_by_index demoStorage "T1" (-1) = .ok row ∧
      T1.data[((-1 : Int) + T1.data.length).toNat]? = some row :=
  get_row_by_index_negative_ok demoStorage "T1" T1 (by decide) (-1) (by decide)
    (by decide)

/-- C6: on an empty incoming message list the validator returns only the
canned prompt-for-input AI message with next set to end, and the validator's
conditional edge maps that key to END so no worker node runs; on a non-empty
list it passes the messages through unchanged with next set to router, whose
edge leads to the router node. -/
theorem validate_input_spec (msgs : List Message) (h : msgs ≠ []) :
    validate_input [] = ⟨[⟨.ai, "Please enter a question", none⟩], "end"⟩ ∧
    validator_edges (route (validate_input [])) = some .END ∧
    validate_input msgs = ⟨msgs, "router"⟩ ∧
    validator_edges (route (validate_input msgs)) = some (.node "router") := by
  refine ⟨rfl, rfl, ?_, ?_⟩
  · simp [validate_input, h]
  · simp [validate_input, h, route, validator_edges]

theorem validate_input_spec_witness :
    validate_input [] = ⟨[⟨.ai, "Please enter a question", none⟩], "end"⟩ ∧
    validator_edges (route (validate_input [])) = some .END ∧
    validate_input [⟨.human, "question", none⟩] = ⟨[⟨.human, "question", none⟩], "router"⟩ ∧
    validator_edges (route (validate_input [⟨.human, "question", none⟩])) =
      some (.node "router") :=
  validate_input_spec [⟨.human, "question", none⟩] (by decide)

/-- C7: a routing decision value outside the allowed options is rejected when
the Router model is constructed, and every successfully constructed Router
makes the planner goto one of the two workers or the END sentinel. -/
theorem router_decision_validated (v : String) :
    (v ∉ options → ∃ e, mkRouter v = .error e) ∧
    (∀ r, mkRouter v = .ok r →
      planner_goto r = "table_agent" ∨ planner_goto r = "analysis_agent" ∨
        planner_goto r = endSentinel) := by
  constructor
  · intro hv
    refine ⟨"next must be one of " ++ String.intercalate ", " options ++ ", got " ++ v, ?_⟩
    simp [mkRouter, Router.validate_next, hv]
  · intro r hr
    by_cases hv : v ∈ options
    · simp [mkRouter, Router.validate_next, hv] at hr
      simp [options, members] at hv
      rcases hv with h1 | h1 | h1 <;>
        simp [planner_goto, ← hr, h1, endSentinel]
    · simp [mkRouter, Router.validate_next, hv] at hr

theorem router_decision_validated_witness :
    (∃ e, mkRouter "supervisor" = .error e) ∧
    (planner_goto ⟨"FINISH"⟩ = "table_agent" ∨
      planner_goto ⟨"FINISH"⟩ = "analysis_agent" ∨
      planner_goto ⟨"FINISH"⟩ = endSentinel) :=
  ⟨(router_decision_validated "supervisor").1 (by decide),
   (router_decision_validated "FINISH").2 ⟨"FINISH"⟩ rfl⟩

/-- C8: whatever the input state, the table agent node and the analysis node
each return a Command whose goto is router and whose update is exactly one
message labeled with the worker's name; neither picks the next worker or END.
The hypotheses state that the opaque LLM-backed invoke returns at least one
message, which holds for the agents built by create_agent since they extend
the non-empty invoked message list. -/
theorem worker_nodes_report_to_router
    (agentT agentA : List Message → List Message) (state_messages : List Message)
    (hT : agentT (⟨.system, TABLE_AGENT_SYSTEM_PROMPT, none⟩ :: state_messages) ≠ [])
    (hA : agentA (⟨.system, ANALYSIS_AGENT_SYSTEM_PROMPT, none⟩ :: state_messages) ≠ []) :
    (∃ m, table_agent_node agentT state_messages = some ⟨"router", [m]⟩ ∧
      m.author = some "table_agent") ∧
    (∃ m, analysis_node agentA state_messages = some ⟨"router", [m]⟩ ∧
      m.author = some "analysis_agent") := by
  obtain ⟨a, ha⟩ := pyGet_neg_one _ hT
  obtain ⟨b, hb⟩ := pyGet_neg_one _ hA
  constructor
  · exact ⟨⟨.human, a.content, some "table_agent"⟩,
      by simp [table_agent_node, ha], rfl⟩
  · exact ⟨⟨.human, b.content, some "analysis_agent"⟩,
      by simp [analysis_node, hb], rfl⟩

theorem worker_nodes_report_to_router_witness :
    (∃ m, table_agent_node (fun ms => ms) [] = some ⟨"router", [m]⟩ ∧
      m.author = some "table_agent") ∧
    (∃ m, analysis_node (fun ms => ms) [] = some ⟨"router", [m]⟩ ∧
      m.author = some "analysis_agent") :=
  worker_nodes_report_to_router (fun ms => ms) (fun ms => ms) [] (by simp) (by simp)
